import Mathlib

/-!
Verification of the spotify track-widget service (`lm04-stats`).

We shallowly embed the Rust source:
- `serde_json::Value` becomes the inductive `Json`; indexing a `Value`
  (`json["k"]`) yields `Json.null` for missing keys or non-objects, while
  indexing a `serde_json::Map` (`map["k"]`) panics on a missing key, which we
  model as `Option Json` with `none` standing for the panic.
- Functions that may panic return `Option`; fallible operations return
  `Except`; network and database effects become explicit parameters
  describing their outcome.
- `chrono` timestamps become `Int` (seconds); `u8` casts become `% 256`.
-/

namespace LM04

/-- Shallow embedding of `serde_json::Value`. Integral numbers carry their
value as an `Int` (serde_json stores them as `u64`/`i64`); `fnum` stands for
a non-integral (floating-point) number, on which `as_u64` returns `None`. -/
inductive Json where
  | null
  | bool (b : Bool)
  | num (n : Int)
  | fnum
  | str (s : String)
  | arr (elems : List Json)
  | obj (fields : List (String × Json))

/-- Embeds `Value::as_bool`. -/
def Json.asBool : Json → Option Bool
  | .bool b => some b
  | _ => none

/-- Embeds `Value::as_str`. -/
def Json.asStr : Json → Option String
  | .str s => some s
  | _ => none

/-- Embeds `Value::as_array`. -/
def Json.asArray : Json → Option (List Json)
  | .arr xs => some xs
  | _ => none

/-- Embeds `Value::as_object`. -/
def Json.asObject : Json → Option (List (String × Json))
  | .obj fs => some fs
  | _ => none

/-- Embeds `Value::as_u64`: `Some` exactly for numbers stored as an unsigned
integer (nonnegative, below 2^64). -/
def Json.asU64 : Json → Option Nat
  | .num n => if 0 ≤ n ∧ n < 2 ^ 64 then some n.toNat else none
  | _ => none

/-- Embeds `Value` bracket-indexing (`Index<&str>`): on an object, the value at the key (first
occurrence), else `Null`; on a non-object, `Null`. Never panics. -/
def Json.index (j : Json) (k : String) : Json :=
  match j with
  | .obj fs => (fs.lookup k).getD .null
  | _ => .null

/-- Embeds `serde_json::Map` bracket-indexing (`Index<&str>`): returns the value at the key, and
PANICS when the key is absent (modelled as `none`). -/
def mapIndex (fs : List (String × Json)) (k : String) : Option Json :=
  fs.lookup k

/-- Struct `Artist` from `src/api/spotify.rs`. -/
structure Artist where
  id : String
  name : String
deriving Repr, DecidableEq

/-- Struct `AlbumImage` from `src/api/spotify.rs` (`usize` as `Nat`). -/
structure AlbumImage where
  url : String
  height : Option Nat
  width : Option Nat
deriving Repr, DecidableEq

/-- Struct `Album` from `src/api/spotify.rs`. -/
structure Album where
  id : String
  name : String
  artists : List Artist
  images : List AlbumImage
deriving Repr, DecidableEq

/-- Struct `Track` from `src/api/spotify.rs`. `duration_ms : u64` and
`popularity : u8` are modelled as `Nat` (the parser enforces the ranges). -/
structure Track where
  id : String
  name : String
  album : Album
  artists : List Artist
  explicit : Bool
  preview_url : Option String
  duration_ms : Nat
  popularity : Nat
deriving Repr, DecidableEq

/-- Struct `TrackDetails` from `src/api/spotify.rs`. -/
structure TrackDetails where
  item : Option Track
  is_playing : Bool
  played_at : Option String
deriving Repr, DecidableEq

/-- Embeds `parse_artists_from_json`: on a non-array, the empty list; otherwise
each element is mapped with `Value` indexing (never panics). -/
def parse_artists_from_json (artists_value : Json) : List Artist :=
  (artists_value.asArray.getD []).map fun artist =>
    { id := ((artist.index "id").asStr).getD ""
      name := ((artist.index "name").asStr).getD "" }

/-- Embeds `parse_album_images_from_json`: on a non-array, the empty list;
`height`/`width` are `as_u64` results cast to `usize` (identity on 64-bit). -/
def parse_album_images_from_json (images_value : Json) : List AlbumImage :=
  (images_value.asArray.getD []).map fun image =>
    { url := ((image.index "url").asStr).getD ""
      height := (image.index "height").asU64
      width := (image.index "width").asU64 }

/-- Embeds `parse_album_from_json`: `Value` indexing with defaults (never panics). -/
def parse_album_from_json (album_data : Json) : Album :=
  { id := ((album_data.index "id").asStr).getD ""
    name := ((album_data.index "name").asStr).getD ""
    artists := parse_artists_from_json (album_data.index "artists")
    images := parse_album_images_from_json (album_data.index "images") }

/-- Embeds `parse_track_from_json`: takes a `serde_json::Map` and indexes it with
the `Map` indexer, which panics on absent keys (hence `Option Track`, `none`
= panic). Field expressions are evaluated in the struct-literal order of the
source. The `as u8` cast on `popularity` truncates: `% 256`. -/
def parse_track_from_json (track_data : List (String × Json)) : Option Track := do
  let idv ← mapIndex track_data "id"
  let namev ← mapIndex track_data "name"
  let albumv ← mapIndex track_data "album"
  let artistsv ← mapIndex track_data "artists"
  let explicitv ← mapIndex track_data "explicit"
  let previewv ← mapIndex track_data "preview_url"
  let durationv ← mapIndex track_data "duration_ms"
  let popularityv ← mapIndex track_data "popularity"
  some
    { id := (idv.asStr).getD ""
      name := (namev.asStr).getD ""
      album := parse_album_from_json albumv
      artists := parse_artists_from_json artistsv
      explicit := (explicitv.asBool).getD false
      preview_url := previewv.asStr
      duration_ms := (durationv.asU64).getD 0
      popularity := ((popularityv.asU64).getD 0) % 256 }

/-- Embeds `parse_currently_playing_response`. `json["is_playing"]` and
`json["item"]` use `Value` indexing (total); but when `item` is an object,
`item_data["type"]` uses `Map` indexing and panics if `type` is absent. -/
def parse_currently_playing_response (json : Json) : Option TrackDetails := do
  let is_playing := ((json.index "is_playing").asBool).getD false
  match (json.index "item").asObject with
  | some item_data => do
      let typev ← mapIndex item_data "type"
      if typev.asStr = some "track" then do
        let t ← parse_track_from_json item_data
        some { item := some t, is_playing := is_playing, played_at := none }
      else
        some { item := none, is_playing := is_playing, played_at := none }
  | none => some { item := none, is_playing := is_playing, played_at := none }

/-- Embeds `parse_recently_played_response`. `items` comes from `Value` indexing
(empty list on absent/wrong type); a nonempty list uses index 0 only. -/
def parse_recently_played_response (json : Json) : Option TrackDetails :=
  let items := ((json.index "items").asArray).getD []
  if items.isEmpty then
    some { item := none, is_playing := false, played_at := none }
  else
    let most_recent_item := items.headD .null
    let played_at := (most_recent_item.index "played_at").asStr
    match (most_recent_item.index "track").asObject with
    | some track_data =>
        (parse_track_from_json track_data).map fun t =>
          { item := some t, is_playing := false, played_at := played_at }
    | none => some { item := none, is_playing := false, played_at := played_at }

/-- Struct `SpotifyToken` from `src/models/spotify_token.rs`; `NaiveDateTime`
timestamps are modelled as `Int` seconds. -/
structure SpotifyToken where
  id : Int
  access_token : String
  refresh_token : String
  scope : Option String
  expires_at : Option Int
  updated_at : Option Int
deriving Repr, DecidableEq

/-- Struct `SpotifyRefreshResponse` from `src/models/spotify_token.rs`:
the decoded body of a successful token-endpoint reply. -/
structure SpotifyRefreshResponse where
  access_token : String
  refresh_token : Option String
  expires_in : Option Int
deriving Repr, DecidableEq

/-- Error enum `SpotifyTokenError` from `src/models/spotify_token.rs`. -/
inductive SpotifyTokenError where
  | databaseError (msg : String)
  | httpError (msg : String)
  | noTokenFound
  | refreshFailed (msg : String)
deriving Repr, DecidableEq

/-- Outcome of the POST to the token endpoint, as `refresh_token` observes
it: transport failure; or a status together with the body decoded as
`SpotifyRefreshResponse` (`none` = the body failed to decode). -/
inductive RefreshHttpOutcome where
  | networkError
  | response (status : Nat) (body : Option SpotifyRefreshResponse)
deriving Repr, DecidableEq

/-- Embeds `reqwest::StatusCode::is_success`: `2xx`. -/
def isSuccessStatus (status : Nat) : Bool :=
  200 ≤ status ∧ status ≤ 299

/-- Embeds `SpotifyToken::refresh_token`. Effects are explicit parameters: `http`
is the token-endpoint exchange, `nowExp` and `nowUpd` the two `Utc::now()`
readings (for `expires_at` and `updated_at`), and `dbOk` whether the
`UPDATE ... RETURNING *` succeeds (the row it returns carries exactly the
updated fields, the untouched `id` and `scope` included). -/
def SpotifyToken.refreshToken (token : SpotifyToken) (http : RefreshHttpOutcome)
    (nowExp nowUpd : Int) (dbOk : Bool) : Except SpotifyTokenError SpotifyToken :=
  match http with
  | .networkError => .error (.httpError "send failed")
  | .response status body =>
    if isSuccessStatus status then
      match body with
      | none => .error (.httpError "response body did not decode")
      | some refresh_response =>
        let expires_at := refresh_response.expires_in.map fun expires_in =>
          nowExp + expires_in
        let new_refresh_token :=
          refresh_response.refresh_token.getD token.refresh_token
        let updated_at := nowUpd
        if dbOk then
          .ok { id := token.id
                access_token := refresh_response.access_token
                refresh_token := new_refresh_token
                scope := token.scope
                expires_at := expires_at
                updated_at := some updated_at }
        else .error (.databaseError "update failed")
    else .error (.refreshFailed "error body")

/-- Embeds `SpotifyToken::needs_refresh`: absent `expires_at` or `now ≥ expires_at`. -/
def SpotifyToken.needsRefresh (now : Int) (token : SpotifyToken) : Bool :=
  match token.expires_at with
  | none => true
  | some expires_at => now ≥ expires_at

/-- Embeds `SpotifyToken::get_valid_access_token`. `query` is the outcome of
`query_for_token` (`.error` = sqlx error, `.ok none` = no row); the
remaining parameters feed `refreshToken` when a refresh is needed. -/
def SpotifyToken.getValidAccessToken (query : Except String (Option SpotifyToken))
    (now : Int) (http : RefreshHttpOutcome) (nowExp nowUpd : Int) (dbOk : Bool) :
    Except SpotifyTokenError SpotifyToken :=
  match query with
  | .error e => .error (.databaseError e)
  | .ok none => .error .noTokenFound
  | .ok (some token) =>
    if token.needsRefresh now then token.refreshToken http nowExp nowUpd dbOk
    else .ok token

/-- Outcome of one GET against the Spotify player API, as the handler
observes it: transport failure, or a status with the body parsed as JSON
(`none` = `.json::<serde_json::Value>()` failed). -/
inductive UpstreamOutcome where
  | networkError
  | response (status : Nat) (body : Option Json)

/-- The three response arms of `TrackWidgetResponse`, each carrying its
`ErrorResponse`-shaped payload (`code`, `message`, `details`). -/
inductive TrackWidgetResponse where
  | ok (body : TrackDetails)
  | unauthorized (code message : String) (details : Option String)
  | internalServerError (code message : String) (details : Option String)

/-- Embeds `SpotifyApi::fetch_recently_played_track`: transport errors, non-200
statuses and JSON-decoding failures are all `Except.error`; a 200 body is
parsed with `parse_recently_played_response` (whose panic propagates as the
outer `none`). -/
def fetch_recently_played_track (recent : UpstreamOutcome) :
    Option (Except String TrackDetails) :=
  match recent with
  | .networkError => some (.error "send failed")
  | .response status body =>
    if status = 200 then
      match body with
      | none => some (.error "response body did not decode")
      | some json => (parse_recently_played_response json).map .ok
    else some (.error "Failed to fetch recently played tracks")

/-- Embeds `SpotifyApi::handle_no_track_playing`: any error from the fallback
fetch becomes a 200 with an empty `TrackDetails`. -/
def handle_no_track_playing (recent : UpstreamOutcome) :
    Option TrackWidgetResponse :=
  (fetch_recently_played_track recent).map fun result =>
    match result with
    | .ok recently_played => .ok recently_played
    | .error _ => .ok { item := none, is_playing := false, played_at := none }

/-- Embeds `SpotifyApi::get_currently_playing`, the widget handler.
`tokenResult` is the outcome of `get_valid_access_token`, `current` of the
currently-playing GET, `recent` of the recently-played GET; the result is
`none` when a parser panic escapes the handler. -/
def get_currently_playing (tokenResult : Except SpotifyTokenError SpotifyToken)
    (current : UpstreamOutcome) (recent : UpstreamOutcome) :
    Option TrackWidgetResponse :=
  match tokenResult with
  | .error _ =>
    some (.unauthorized "SPOTIFY_AUTH_FAILED" "Failed to authenticate with Spotify" none)
  | .ok _ =>
    match current with
    | .networkError =>
      some (.internalServerError "SPOTIFY_API_ERROR" "Failed to connect to Spotify API" none)
    | .response status body =>
      if status = 200 then
        match body with
        | some json =>
          match parse_currently_playing_response json with
          | none => none
          | some currently_playing =>
            if currently_playing.item.isSome then some (.ok currently_playing)
            else handle_no_track_playing recent
        | none =>
          some (.internalServerError "SPOTIFY_RESPONSE_PARSE_FAILURE"
            "Failed to parse Spotify response" none)
      else if status = 204 then handle_no_track_playing recent
      else
        some (.internalServerError "SPOTIFY_UNEXPECTED_RESPONSE"
          "Unexpected response from Spotify API" none)

/-! ## Theorems -/

/-- Helper: the shape of the credential returned by a successful
`refresh_token` run, in terms of the decoded refresh response. -/
theorem refreshToken_ok_shape
    (token result : SpotifyToken) (status : Nat) (resp : SpotifyRefreshResponse)
    (nowExp nowUpd : Int) (dbOk : Bool)
    (h : token.refreshToken (.response status (some resp)) nowExp nowUpd dbOk = .ok result) :
    result = { id := token.id
               access_token := resp.access_token
               refresh_token := resp.refresh_token.getD token.refresh_token
               scope := token.scope
               expires_at := resp.expires_in.map fun s => nowExp + s
               updated_at := some nowUpd } := by
  simp only [SpotifyToken.refreshToken] at h
  split at h
  · split at h
    · exact (Except.ok.inj h).symm
    · exact absurd h (by simp)
  · exact absurd h (by simp)

/-- Helper: a successful `refresh_token` run must have gone through a
2xx response with a decodable body and a successful row update. -/
theorem refreshToken_ok_elim
    (token result : SpotifyToken) (http : RefreshHttpOutcome)
    (nowExp nowUpd : Int) (dbOk : Bool)
    (h : token.refreshToken http nowExp nowUpd dbOk = .ok result) :
    ∃ status resp, http = .response status (some resp) ∧
      isSuccessStatus status = true ∧ dbOk = true := by
  cases http with
  | networkError => exact absurd h (by simp [SpotifyToken.refreshToken])
  | response status body =>
    cases body with
    | none =>
      simp only [SpotifyToken.refreshToken] at h
      split at h <;> exact absurd h (by simp)
    | some resp =>
      refine ⟨status, resp, rfl, ?_, ?_⟩ <;>
      · simp only [SpotifyToken.refreshToken] at h
        split at h
        · split at h
          · simp_all
          · exact absurd h (by simp)
        · exact absurd h (by simp)

/-- A stored credential used as a concrete input below. -/
def storedTok : SpotifyToken :=
  { id := 1, access_token := "old-access", refresh_token := "old-refresh"
    scope := none, expires_at := some 0, updated_at := some 0 }

/-- A refresh response that omits both `refresh_token` and `expires_in`. -/
def bareResp : SpotifyRefreshResponse :=
  { access_token := "new-access", refresh_token := none, expires_in := none }

/-- The credential `refresh_token` persists for `storedTok` and `bareResp`. -/
def storedTokAfterBare : SpotifyToken :=
  { id := 1, access_token := "new-access", refresh_token := "old-refresh"
    scope := none, expires_at := none, updated_at := some 100 }

/-- C1 counterexample: a refresh whose upstream response omits `expires_in`
succeeds, yet the persisted credential's `expiresAt` is null — so a
successful refresh does NOT always pair `accessToken` with a non-null
`expiresAt`. -/
theorem refreshToken_expires_at_none_cex :
    storedTok.refreshToken (.response 200 (some bareResp)) 100 100 true
      = .ok storedTokAfterBare ∧
    storedTokAfterBare.expires_at = none :=
  ⟨rfl, rfl⟩

/-- C1 (amended): after every successful `refresh_token` run, the persisted
credential's `expiresAt` is `now + expiresIn` when the upstream response
carries `expires_in`, and null when it omits it (so `expiresAt` is non-null
iff `expires_in` was present); `updatedAt` is always set to now. -/
theorem refreshToken_expires_at_matches_expires_in
    (token result : SpotifyToken) (status : Nat) (resp : SpotifyRefreshResponse)
    (nowExp nowUpd : Int) (dbOk : Bool)
    (h : token.refreshToken (.response status (some resp)) nowExp nowUpd dbOk = .ok result) :
    result.expires_at = resp.expires_in.map (fun expires_in => nowExp + expires_in) ∧
    result.updated_at = some nowUpd ∧
    (result.expires_at ≠ none ↔ resp.expires_in ≠ none) := by
  have hshape := refreshToken_ok_shape token result status resp nowExp nowUpd dbOk h
  subst hshape
  refine ⟨rfl, rfl, ?_⟩
  cases resp.expires_in <;> simp

/-- A refresh response carrying `expires_in = 3600` seconds. -/
def resp3600 : SpotifyRefreshResponse :=
  { access_token := "new-access", refresh_token := none, expires_in := some 3600 }

/-- The credential persisted for `storedTok` refreshed with `resp3600` at
`nowExp = 100`, `nowUpd = 200`. -/
def storedTokAfter3600 : SpotifyToken :=
  { id := 1, access_token := "new-access", refresh_token := "old-refresh"
    scope := none, expires_at := some 3700, updated_at := some 200 }

/-- Witness for the amended C1: a concrete successful refresh whose
response carries `expires_in = 3600` persists `expiresAt = 100 + 3600`
and `updatedAt = 200`. -/
theorem refreshToken_expires_at_matches_expires_in_witness :
    storedTokAfter3600.expires_at
        = resp3600.expires_in.map (fun expires_in => 100 + expires_in) ∧
    storedTokAfter3600.updated_at = some 200 :=
  ⟨(refreshToken_expires_at_matches_expires_in storedTok storedTokAfter3600 200 resp3600
      100 200 true rfl).1,
   (refreshToken_expires_at_matches_expires_in storedTok storedTokAfter3600 200 resp3600
      100 200 true rfl).2.1⟩

/-- C5: a refresh response omitting `refresh_token` leaves the stored
refresh token unchanged; one including it replaces the stored value. -/
theorem refreshToken_refresh_token_retention
    (token result : SpotifyToken) (status : Nat) (resp : SpotifyRefreshResponse)
    (nowExp nowUpd : Int) (dbOk : Bool)
    (h : token.refreshToken (.response status (some resp)) nowExp nowUpd dbOk = .ok result) :
    (resp.refresh_token = none → result.refresh_token = token.refresh_token) ∧
    (∀ s, resp.refresh_token = some s → result.refresh_token = s) := by
  have hshape := refreshToken_ok_shape token result status resp nowExp nowUpd dbOk h
  subst hshape
  constructor
  · intro hnone
    simp [hnone]
  · intro s hs
    simp [hs]

/-- Witness for C5: the concrete refresh of `storedTok` with a response
omitting `refresh_token` keeps `"old-refresh"`. -/
theorem refreshToken_refresh_token_retention_witness :
    storedTokAfterBare.refresh_token = storedTok.refresh_token :=
  (refreshToken_refresh_token_retention storedTok storedTokAfterBare 200 bareResp
    100 100 true rfl).1 rfl

/-- A stored credential expiring at time `10`. -/
def storedTokExp10 : SpotifyToken :=
  { id := 1, access_token := "old-access", refresh_token := "old-refresh"
    scope := none, expires_at := some 10, updated_at := some 0 }

/-- C2: `get_valid_access_token` refreshes exactly when `expires_at` is
absent or `now ≥ expires_at` (the boundary `now = expires_at` included),
and returns the stored credential unchanged, with no refresh, when
`expires_at` is strictly in the future. -/
theorem getValidAccessToken_refresh_iff
    (token : SpotifyToken) (now : Int) (http : RefreshHttpOutcome)
    (nowExp nowUpd : Int) (dbOk : Bool) :
    (token.needsRefresh now = true ↔
      token.expires_at = none ∨ ∃ e, token.expires_at = some e ∧ e ≤ now) ∧
    (token.needsRefresh now = true →
      SpotifyToken.getValidAccessToken (.ok (some token)) now http nowExp nowUpd dbOk
        = token.refreshToken http nowExp nowUpd dbOk) ∧
    (∀ e, token.expires_at = some e → now < e →
      SpotifyToken.getValidAccessToken (.ok (some token)) now http nowExp nowUpd dbOk
        = .ok token) := by
  refine ⟨?_, ?_, ?_⟩
  · cases hexp : token.expires_at with
    | none => simp [SpotifyToken.needsRefresh, hexp]
    | some e =>
      simp only [SpotifyToken.needsRefresh, hexp]
      constructor
      · intro hge
        exact Or.inr ⟨e, rfl, by exact_mod_cast of_decide_eq_true hge⟩
      · rintro (hcon | ⟨e', he', hle⟩)
        · exact absurd hcon (by simp)
        · cases Option.some.inj he'
          exact decide_eq_true (by exact_mod_cast hle)
  · intro hneeds
    simp [SpotifyToken.getValidAccessToken, hneeds]
  · intro e hexp hlt
    have hfalse : token.needsRefresh now = false := by
      simp only [SpotifyToken.needsRefresh, hexp]
      exact decide_eq_false (by omega)
    simp [SpotifyToken.getValidAccessToken, hfalse]

/-- Witness for C2: at `now = 10`, a credential expiring at `10` is
refreshed (inclusive boundary), while at `now = 9` it is returned
unchanged. -/
theorem getValidAccessToken_refresh_iff_witness :
    SpotifyToken.getValidAccessToken (.ok (some storedTokExp10)) 10 .networkError 0 0 true
      = storedTokExp10.refreshToken .networkError 0 0 true ∧
    SpotifyToken.getValidAccessToken (.ok (some storedTokExp10)) 9 .networkError 0 0 true
      = .ok storedTokExp10 :=
  ⟨(getValidAccessToken_refresh_iff storedTokExp10 10 .networkError 0 0 true).2.1 (by decide),
   (getValidAccessToken_refresh_iff storedTokExp10 9 .networkError 0 0 true).2.2 10 rfl
     (by decide)⟩

/-- C9: every failure of `get_valid_access_token` — missing credential row,
database error, transport error during refresh, or an upstream-rejected
refresh — makes the handler answer 401 `SPOTIFY_AUTH_FAILED` with null
details, never a 500. -/
theorem get_currently_playing_auth_failure (e : SpotifyTokenError)
    (current recent : UpstreamOutcome) :
    get_currently_playing (.error e) current recent =
      some (.unauthorized "SPOTIFY_AUTH_FAILED" "Failed to authenticate with Spotify" none) :=
  rfl

/-- C3: every failure on the recently-played fallback path — transport
error, non-200 upstream status, or a body that fails to decode as JSON —
is answered 200 with the empty `TrackDetails`; and whatever the fallback
outcome, the fallback path only ever produces 200 responses (never 401 or
500). -/
theorem handle_no_track_playing_failures (recent : UpstreamOutcome) :
    ((recent = .networkError ∨
      ∃ status body, recent = .response status body ∧ (status ≠ 200 ∨ body = none)) →
      handle_no_track_playing recent =
        some (.ok { item := none, is_playing := false, played_at := none })) ∧
    (∀ r, handle_no_track_playing recent = some r → ∃ td, r = .ok td) := by
  constructor
  · rintro (hnet | ⟨status, body, hresp, hfail⟩)
    · subst hnet
      rfl
    · subst hresp
      rcases hfail with hstatus | hbody
      · simp [handle_no_track_playing, fetch_recently_played_track, hstatus]
      · subst hbody
        by_cases h200 : status = 200 <;>
          simp [handle_no_track_playing, fetch_recently_played_track, h200]
  · intro r hr
    simp only [handle_no_track_playing, Option.map_eq_some'] at hr
    obtain ⟨result, _, hmap⟩ := hr
    cases result <;> exact ⟨_, hmap.symm⟩

/-- Witness for C3: a transport failure on the fallback GET yields the
200-empty response. -/
theorem handle_no_track_playing_failures_witness :
    handle_no_track_playing .networkError =
      some (.ok { item := none, is_playing := false, played_at := none }) :=
  (handle_no_track_playing_failures .networkError).1 (Or.inl rfl)

/-- C6: the handler's dispatch on the currently-playing response: 200 with
an undecodable body → 500 `SPOTIFY_RESPONSE_PARSE_FAILURE`; 200 with a
parsed `TrackDetails` carrying a track → 200 with it; 200 with a null item,
or 204 → the recently-played fallback; any other status → 500
`SPOTIFY_UNEXPECTED_RESPONSE`. -/
theorem get_currently_playing_branches
    (token : SpotifyToken) (recent : UpstreamOutcome) (status : Nat) (body : Option Json) :
    (status = 200 → body = none →
      get_currently_playing (.ok token) (.response status body) recent =
        some (.internalServerError "SPOTIFY_RESPONSE_PARSE_FAILURE"
          "Failed to parse Spotify response" none)) ∧
    (∀ json td, status = 200 → body = some json →
      parse_currently_playing_response json = some td →
      (td.item.isSome = true →
        get_currently_playing (.ok token) (.response status body) recent = some (.ok td)) ∧
      (td.item = none →
        get_currently_playing (.ok token) (.response status body) recent
          = handle_no_track_playing recent)) ∧
    (status = 204 →
      get_currently_playing (.ok token) (.response status body) recent
        = handle_no_track_playing recent) ∧
    (status ≠ 200 → status ≠ 204 →
      get_currently_playing (.ok token) (.response status body) recent =
        some (.internalServerError "SPOTIFY_UNEXPECTED_RESPONSE"
          "Unexpected response from Spotify API" none)) := by
  refine ⟨?_, ?_, ?_, ?_⟩
  · intro h200 hnone
    subst h200
    subst hnone
    rfl
  · intro json td h200 hbody hparse
    subst h200
    subst hbody
    constructor
    · intro hsome
      simp [get_currently_playing, hparse, hsome]
    · intro hnone
      simp [get_currently_playing, hparse, hnone]
  · intro h204
    subst h204
    cases body <;> rfl
  · intro h200 h204
    simp [get_currently_playing, h200, h204]

/-- A fully-populated track object whose `popularity` is 300 (above the
`u8` range). -/
def trackMap300 : List (String × Json) :=
  [("id", .str "t1"), ("name", .str "Song"), ("album", .null),
   ("artists", .null), ("explicit", .bool false), ("preview_url", .null),
   ("duration_ms", .num 1000), ("popularity", .num 300)]

/-- The track `parse_track_from_json` produces from `trackMap300`. -/
def track300 : Track :=
  { id := "t1", name := "Song"
    album := { id := "", name := "", artists := [], images := [] }
    artists := [], explicit := false, preview_url := none
    duration_ms := 1000, popularity := 44 }

/-- A currently-playing body carrying a playing track item. -/
def playingTrackJson : Json :=
  .obj [("is_playing", .bool true),
        ("item", .obj (("type", .str "track") :: trackMap300))]

/-- The `TrackDetails` parsed from `playingTrackJson`. -/
def playingTrackDetails : TrackDetails :=
  { item := some track300, is_playing := true, played_at := none }

/-- Witness for C6: a concrete 200 reply with a playing track yields 200
with it, a 204 reply routes to the fallback, and a 503 reply yields the 500
`SPOTIFY_UNEXPECTED_RESPONSE`. -/
theorem get_currently_playing_branches_witness :
    get_currently_playing (.ok storedTokExp10) (.response 200 (some playingTrackJson))
        .networkError = some (.ok playingTrackDetails) ∧
    get_currently_playing (.ok storedTokExp10) (.response 204 none) .networkError
      = handle_no_track_playing .networkError ∧
    get_currently_playing (.ok storedTokExp10) (.response 503 none) .networkError =
      some (.internalServerError "SPOTIFY_UNEXPECTED_RESPONSE"
        "Unexpected response from Spotify API" none) :=
  ⟨((get_currently_playing_branches storedTokExp10 .networkError 200
      (some playingTrackJson)).2.1 playingTrackJson playingTrackDetails rfl rfl
      (by rfl)).1 rfl,
   (get_currently_playing_branches storedTokExp10 .networkError 204 none).2.2.1 rfl,
   (get_currently_playing_branches storedTokExp10 .networkError 503 none).2.2.2
     (by decide) (by decide)⟩

/-- C4 (code bug): `parse_track_from_json` indexes a `serde_json::Map`,
which PANICS on an absent key, so on the empty object it does not return a
defaulted `Track` — it panics at the `id` lookup. The three `Value`-indexed
parsers are total and default as documented (empty lists on non-arrays,
empty strings / `None` sizes on a malformed album). -/
theorem parse_track_from_json_panics_on_empty_object :
    parse_track_from_json [] = none ∧
    parse_artists_from_json .null = [] ∧
    parse_album_images_from_json .null = [] ∧
    parse_album_from_json .null =
      { id := "", name := "", artists := [], images := [] } :=
  ⟨rfl, rfl, rfl, rfl⟩

/-- A currently-playing body whose `item` is an object with no `type` key. -/
def currentlyPlayingNoType : Json :=
  .obj [("is_playing", .bool true), ("item", .obj [])]

/-- A currently-playing body whose `item` is an episode. -/
def currentlyPlayingEpisode : Json :=
  .obj [("is_playing", .bool true), ("item", .obj [("type", .str "episode")])]

/-- C7 (code bug): when the `item` object carries a non-"track" `type`, the
parser correctly yields a null item with the top-level `is_playing`; but
when the `item` object has NO `type` key at all, `item_data["type"]` is a
`serde_json::Map` index and the parser panics instead of yielding
`item = null`. -/
theorem parse_currently_playing_panics_on_missing_type :
    parse_currently_playing_response currentlyPlayingEpisode
      = some { item := none, is_playing := true, played_at := none } ∧
    parse_currently_playing_response currentlyPlayingNoType = none :=
  ⟨rfl, rfl⟩

/-- C8: `parse_recently_played_response` yields the empty `TrackDetails`
when `items` is absent, wrong-typed or empty; otherwise it reads only the
first entry, taking `played_at` from that entry's string field (null when
absent or wrong-typed) and the item from parsing that entry's `track`
object; every value it returns has `isPlaying = false`. -/
theorem parse_recently_played_first_entry (json : Json) :
    (((json.index "items").asArray.getD []).isEmpty = true →
      parse_recently_played_response json =
        some { item := none, is_playing := false, played_at := none }) ∧
    (∀ entry rest td, (json.index "items").asArray = some (entry :: rest) →
      parse_recently_played_response json = some td →
      td.is_playing = false ∧
      td.played_at = (entry.index "played_at").asStr ∧
      ((entry.index "track").asObject = none → td.item = none) ∧
      (∀ m t, (entry.index "track").asObject = some m →
        parse_track_from_json m = some t → td.item = some t)) ∧
    (∀ td, parse_recently_played_response json = some td → td.is_playing = false) := by
  refine ⟨?_, ?_, ?_⟩
  · intro hempty
    simp [parse_recently_played_response, hempty]
  · intro entry rest td harr htd
    simp only [parse_recently_played_response, harr, Option.getD_some, List.isEmpty_cons,
      Bool.false_eq_true, if_false, List.headD_cons] at htd
    rcases hobj : (entry.index "track").asObject with _ | m
    · rw [hobj] at htd
      cases Option.some.inj htd
      refine ⟨rfl, rfl, fun _ => rfl, ?_⟩
      intro m t hm _
      exact absurd hm (by simp)
    · rw [hobj] at htd
      rw [Option.map_eq_some'] at htd
      obtain ⟨t, hparse, hmap⟩ := htd
      cases hmap
      refine ⟨rfl, rfl, ?_, ?_⟩
      · intro hcon
        exact absurd hcon (by simp)
      · intro m' t' hm' hparse'
        cases Option.some.inj hm'
        rw [hparse] at hparse'
        cases Option.some.inj hparse'
        rfl
  · intro td htd
    simp only [parse_recently_played_response] at htd
    split at htd
    · cases Option.some.inj htd
      rfl
    · split at htd
      · rw [Option.map_eq_some'] at htd
        obtain ⟨t, _, hmap⟩ := htd
        cases hmap
        rfl
      · cases Option.some.inj htd
        rfl

/-- Witness for C8: an upstream body with no usable `items` field parses to
the empty `TrackDetails`, and a one-entry history parses to its first
entry's timestamp with `isPlaying = false`. -/
theorem parse_recently_played_first_entry_witness :
    parse_recently_played_response (.obj []) =
      some { item := none, is_playing := false, played_at := none } :=
  (parse_recently_played_first_entry (.obj [])).1 rfl

/-- C10: when a parsed track's `popularity` field is a JSON unsigned
integer `v`, the `u64 → u8` cast truncates it to `v % 256` (no clamping,
no default, no failure); and album image `height`/`width`, when present as
unsigned integers, are carried over unchanged by the `u64 → usize` cast. -/
theorem parse_track_popularity_truncates
    (track_data : List (String × Json)) (v : Nat) (t : Track)
    (hv : mapIndex track_data "popularity" = some (.num (v : Int)))
    (hlt : v < 2 ^ 64)
    (ht : parse_track_from_json track_data = some t) :
    t.popularity = v % 256 ∧
    (∀ (image : Json) (rest : List Json) (hNat wNat : Nat),
      (image.index "height").asU64 = some hNat →
      (image.index "width").asU64 = some wNat →
      ((parse_album_images_from_json (.arr (image :: rest))).headD
          { url := "", height := none, width := none }).height = some hNat ∧
      ((parse_album_images_from_json (.arr (image :: rest))).headD
          { url := "", height := none, width := none }).width = some wNat) := by
  constructor
  · simp only [parse_track_from_json, Option.bind_eq_bind, Option.bind_eq_some'] at ht
    obtain ⟨idv, h1, namev, h2, albumv, h3, artistsv, h4, explicitv, h5,
      previewv, h6, durationv, h7, popularityv, h8, ht⟩ := ht
    cases Option.some.inj ht
    rw [hv] at h8
    cases Option.some.inj h8
    have hrange : (0 : Int) ≤ (v : Int) ∧ (v : Int) < 2 ^ 64 := by
      constructor
      · exact_mod_cast Nat.zero_le v
      · exact_mod_cast hlt
    have hlt' : v < 18446744073709551616 := by omega
    simp [Json.asU64, hrange, hlt']
  · intro image rest hNat wNat hh hw
    simp [parse_album_images_from_json, Json.asArray, hh, hw]

/-- Witness for C10: `popularity = 300` parses to `300 % 256 = 44`, and an
image of height 640 and width 480 keeps both dimensions. -/
theorem parse_track_popularity_truncates_witness :
    track300.popularity = 300 % 256 ∧
    ((parse_album_images_from_json
        (.arr [.obj [("url", .str "u"), ("height", .num 640), ("width", .num 480)]])).headD
      { url := "", height := none, width := none }).height = some 640 :=
  ⟨(parse_track_popularity_truncates trackMap300 300 track300 rfl (by decide) (by rfl)).1,
   ((parse_track_popularity_truncates trackMap300 300 track300 rfl (by decide) (by rfl)).2
     (.obj [("url", .str "u"), ("height", .num 640), ("width", .num 480)]) [] 640 480
     (by rfl) (by rfl)).1⟩

end LM04
